import Mathlib

/-!
Verification development for the embedded-IA multi-agent build orchestration
service.  The definitions below are a shallow embedding of the Python source:

* `src/agent/orchestrator.py`   — the workflow engine (`AgentOrchestrator`);
* `src/agent/event_emitter.py`  — the in-process event bus (`EventEmitter`);
* `src/web-server/api/routes/github.py`, `src/web-server/services/webhook_service.py`,
  `src/web-server/database/db.py` — the webhook intake pipeline.

External tool invocations (MCP tools, git, HMAC, the LLM) are modelled by
explicit environment records supplying their observable outputs, so every
definition stays executable.
-/

namespace EmbeddedIA

/-! ## String utilities

Python's `needle in haystack` substring test and `str.lower`. -/

/-- `needle in hay` on character lists: some tail of `hay` starts with `needle`. -/
def listSub (needle hay : List Char) : Bool :=
  hay.tails.any (fun t => needle.isPrefixOf t)

/-- Python `needle in hay` substring containment on strings. -/
def strContains (hay needle : String) : Bool :=
  listSub needle.data hay.data

/-- Python `s.lower()` (ASCII usage only in this code base). -/
def strLower (s : String) : String :=
  ⟨s.data.map Char.toLower⟩

/-- Python `s.startswith(p)`. -/
def strStarts (s p : String) : Bool :=
  p.data.isPrefixOf s.data

/-- Python slicing `s[n:]` (character based). -/
def strDrop (s : String) (n : Nat) : String :=
  ⟨s.data.drop n⟩

/-- One fuel-bounded pass of replace-all on character lists; each step
consumes at least one character of the subject, so fuel = length suffices. -/
def listReplaceFuel (pat rep : List Char) : Nat → List Char → List Char
  | 0, l => l
  | _ + 1, [] => []
  | fuel + 1, c :: rest =>
    if pat.isPrefixOf (c :: rest) then
      rep ++ listReplaceFuel pat rep fuel (List.drop (pat.length - 1) rest)
    else
      c :: listReplaceFuel pat rep fuel rest

/-- Python `s.replace(pat, rep)` for a nonempty pattern (the only use in
this code base strips a nonempty branch-ref head). -/
def strReplace (s pat rep : String) : String :=
  if pat.data.isEmpty then s
  else ⟨listReplaceFuel pat.data rep.data s.data.length s.data⟩

/-- Python `s.strip()`: drop leading and trailing whitespace. -/
def strStrip (s : String) : String :=
  ⟨((s.data.dropWhile Char.isWhitespace).reverse.dropWhile Char.isWhitespace).reverse⟩

namespace Agent

/-! ## Workflow engine data model (`src/agent/orchestrator.py`) -/

/-- `TaskStatus` enum (orchestrator.py lines 21-27). -/
inductive TaskStatus
  | pending
  | in_progress
  | completed
  | failed
  | blocked
deriving DecidableEq, Repr

/-- `AgentRole` enum (orchestrator.py lines 30-37). -/
inductive AgentRole
  | project_manager
  | developer
  | builder
  | tester
  | doctor
  | qa
deriving DecidableEq, Repr

/-- One QA issue record as produced by `_qa_analyze` and consumed by
`_developer_fix`: `{severity, component, message, file?}`. -/
structure Issue where
  severity : String
  component : String
  message : String
  file : Option String := none
deriving DecidableEq, Repr

/-- The handler result dictionaries `{success: bool, ...}`.  Fields model the
keys the engine reads back: `result.get("success")` (absent key is falsy,
hence the `false` default), `result.get("passed", True)` (hence the `Option`),
and `result.get("issues", [])`. -/
structure HandlerResult where
  success : Bool := false
  passed : Option Bool := none
  issues : List Issue := []
  error : Option String := none
deriving DecidableEq, Repr

/-- `result.get("passed", True)`. -/
def HandlerResult.passedOrTrue (r : HandlerResult) : Bool :=
  r.passed.getD true

/-- The `Task` dataclass (orchestrator.py lines 40-51).  The `timestamp`
field is only printed, so it is omitted. -/
structure Task where
  id : String
  role : AgentRole
  action : String
  dependencies : List String
  status : TaskStatus
  result : Option HandlerResult := none
  error : Option String := none
  can_parallelize : Bool := false
deriving DecidableEq, Repr

/-- The artifacts dict keys actually written and read by handlers:
`state.artifacts["build"]` and `state.artifacts["qemu_output"]`. -/
structure Artifacts where
  build : Option String := none
  qemu_output : Option String := none
deriving DecidableEq, Repr

/-- Observable outputs of the external tool invocations made by the agent
handlers (`tool.invoke(...)` results and the code fixer outcome).  The engine
treats each of these as an opaque string; one record models one world. -/
structure ToolEnv where
  list_files : String := ""
  idf_set_target_output : String := ""
  idf_build_output : String := ""
  build_artifacts : String := ""
  idf_flash_output : String := ""
  qemu_output : String := ""
  idf_doctor_output : String := ""
  /-- Whether `_developer_fix` ends with `fixes_applied` nonempty for an issue
  that does carry a resolvable file (file read + LLM fix + write back). -/
  fix_applied : Bool := false
deriving DecidableEq, Repr

/-! ## Agent action handlers (orchestrator.py lines 474-733) -/

/-- `_project_manager_validate`: succeed iff `"CMakeLists.txt" in result`. -/
def project_manager_validate (env : ToolEnv) : HandlerResult :=
  { success := strContains env.list_files "CMakeLists.txt" }

/-- `_project_manager_set_target`: always `{"success": True}`. -/
def project_manager_set_target (_env : ToolEnv) : HandlerResult :=
  { success := true }

/-- `_builder_compile`: success iff `"error" not in result.lower()`; on
success the artifacts metadata is cached into `state.artifacts["build"]`. -/
def builder_compile (env : ToolEnv) (a : Artifacts) : HandlerResult × Artifacts :=
  let ok := !(strContains (strLower env.idf_build_output) "error")
  ({ success := ok },
   if ok then { a with build := some env.build_artifacts } else a)

/-- `_tester_flash`: success iff `"successfully" in result.lower()`. -/
def tester_flash (env : ToolEnv) : HandlerResult :=
  { success := strContains (strLower env.idf_flash_output) "successfully" }

/-- `_tester_qemu`: always succeeds and stores the collected output into
`state.artifacts["qemu_output"]`. -/
def tester_qemu (env : ToolEnv) (a : Artifacts) : HandlerResult × Artifacts :=
  ({ success := true }, { a with qemu_output := some env.qemu_output })

/-- `_doctor_check`: success iff `"error" not in result.lower()`. -/
def doctor_check (env : ToolEnv) : HandlerResult :=
  { success := !(strContains (strLower env.idf_doctor_output) "error") }

/-- The issue list built by `_qa_analyze` (orchestrator.py lines 576-610)
from the accumulated artifacts: build errors, the missing `"Hello World"`
marker, and `error`/`abort` substrings in the simulator output. -/
def qa_issues (a : Artifacts) : List Issue :=
  (match a.build with
   | some build_info =>
     if strContains (strLower build_info) "error" then
       [{ severity := "high", component := "build", message := "Build errors detected" }]
     else []
   | none => []) ++
  (match a.qemu_output with
   | some output =>
     (if !(strContains output "Hello World") then
        [{ severity := "high", component := "application",
           message := "Expected Hello World output not found in QEMU" }]
      else []) ++
     (if strContains (strLower output) "error" || strContains (strLower output) "abort" then
        [{ severity := "medium", component := "runtime",
           message := "Runtime errors detected in QEMU output" }]
      else [])
   | none => [])

/-- `_qa_analyze`: returns `success=True` unconditionally; `passed` iff the
issue list is empty. -/
def qa_analyze (a : Artifacts) : HandlerResult :=
  let issues := qa_issues a
  { success := true, passed := some issues.isEmpty, issues := issues }

/-- `_developer_fix`: overall success iff at least one fix was applied; an
issue without a resolvable `file` is always counted as failed, the rest go
through the file-read / LLM / write-back pipeline modelled by
`env.fix_applied`. -/
def developer_fix (env : ToolEnv) (issues : List Issue) : HandlerResult :=
  { success := issues.any (fun i => i.file.isSome) && env.fix_applied }

/-! ## Workflow state and scheduler (orchestrator.py lines 54-470) -/

/-- `WorkflowState` (orchestrator.py lines 54-63) together with the local
state of `_execute_tasks` (`completed_tasks`, `results`) and an execution
trace recording each `_execute_task` call in order (the source prints this
trace via `print` statements). -/
structure WorkflowState where
  project_path : String
  target : String
  current_phase : String
  tasks : List Task
  artifacts : Artifacts
  qa_iterations : Nat := 0
  max_qa_iterations : Nat := 3
  completed_tasks : List String := []
  results : List (String × HandlerResult) := []
  trace : List String := []
deriving Repr

/-- Final task status assigned by `_execute_task`:
`COMPLETED if result.get("success") else FAILED`. -/
def statusOf (r : HandlerResult) : TaskStatus :=
  if r.success then TaskStatus.completed else TaskStatus.failed

/-- Replace the task with matching id in the ordered task map. -/
def updateTask (tasks : List Task) (t : Task) : List Task :=
  tasks.map (fun u => if u.id == t.id then t else u)

/-- `self.state.tasks[task_id]` lookup. -/
def findTask (tasks : List Task) (i : String) : Option Task :=
  tasks.find? (fun t => t.id == i)

/-- Dispatch on the action tag (orchestrator.py lines 389-406), returning the
handler result together with the updated artifacts map. -/
def dispatch_action (env : ToolEnv) (a : Artifacts) (t : Task) : HandlerResult × Artifacts :=
  if t.action == "validate_project_structure" then (project_manager_validate env, a)
  else if t.action == "set_chip_target" then (project_manager_set_target env, a)
  else if t.action == "compile_and_cache" then builder_compile env a
  else if t.action == "flash_to_hardware" then (tester_flash env, a)
  else if t.action == "start_qemu" then tester_qemu env a
  else if t.action == "run_diagnostics" then (doctor_check env, a)
  else if t.action == "analyze_results" then (qa_analyze a, a)
  else if t.action == "fix_issues" then
    (developer_fix env ((t.result.map HandlerResult.issues).getD []), a)
  else ({ success := false, error := some ("Unknown action: " ++ t.action) }, a)

/-- `_execute_task`: run the handler, set the final status from the result's
`success` field, record the result on the task, and append the task id to the
execution trace.  Handlers in this model do not raise, so the exception
branch of the source is unreachable here. -/
def execute_task (env : ToolEnv) (s : WorkflowState) (t : Task) :
    WorkflowState × HandlerResult :=
  let d := dispatch_action env s.artifacts t
  ({ s with
      tasks := updateTask s.tasks { t with status := statusOf d.1, result := some d.1 },
      artifacts := d.2,
      trace := s.trace ++ [t.id] },
   d.1)

/-- `_handle_qa_feedback` (orchestrator.py lines 420-470): increment the
iteration counter, then append and immediately execute the
`fix_issues_{n}` / `rebuild_{n}` / `retest_{n}` tasks. -/
def handle_qa_feedback (env : ToolEnv) (s : WorkflowState) (qa_result : HandlerResult) :
    WorkflowState :=
  let n := s.qa_iterations + 1
  let s1 := { s with qa_iterations := n }
  let fix_task : Task :=
    { id := "fix_issues_" ++ toString n, role := AgentRole.developer,
      action := "fix_issues", dependencies := [], status := TaskStatus.pending,
      result := some { issues := qa_result.issues } }
  let s2 := (execute_task env { s1 with tasks := s1.tasks ++ [fix_task] } fix_task).1
  let rebuild_task : Task :=
    { id := "rebuild_" ++ toString n, role := AgentRole.builder,
      action := "compile_and_cache", dependencies := [fix_task.id],
      status := TaskStatus.pending }
  let s3 := (execute_task env { s2 with tasks := s2.tasks ++ [rebuild_task] } rebuild_task).1
  let retest_task : Task :=
    { id := "retest_" ++ toString n, role := AgentRole.qa,
      action := "analyze_results", dependencies := [rebuild_task.id],
      status := TaskStatus.pending }
  (execute_task env { s3 with tasks := s3.tasks ++ [retest_task] } retest_task).1

/-- `completed_tasks.add(task_id)` — set semantics on the ordered list. -/
def addCompleted (l : List String) (i : String) : List String :=
  if l.contains i then l else l ++ [i]

/-- The sequential half of one scheduler pass (orchestrator.py lines 345-357):
execute the selected non-parallel tasks one at a time, in order, checking for
the QA feedback loop after each. -/
def run_sequential (env : ToolEnv) : WorkflowState → List Task → WorkflowState
  | s, [] => s
  | s, t :: rest =>
    let er := execute_task env s t
    let s1 : WorkflowState := { er.1 with
      results := er.1.results ++ [(t.id, er.2)],
      completed_tasks := addCompleted er.1.completed_tasks t.id }
    let s2 :=
      if t.id == "qa_analysis" && !er.2.passedOrTrue then
        if s1.qa_iterations < s1.max_qa_iterations then
          handle_qa_feedback env s1 er.2
        else s1
      else s1
    run_sequential env s2 rest

/-- The parallel half of one scheduler pass (orchestrator.py lines 359-373):
`asyncio.gather` over the parallel group, determinised to execution in list
order; each outcome is recorded and the task id added to the completed set.
There is no QA feedback check in this branch. -/
def run_parallel (env : ToolEnv) : WorkflowState → List Task → WorkflowState
  | s, [] => s
  | s, t :: rest =>
    let er := execute_task env s t
    run_parallel env
      { er.1 with
        results := er.1.results ++ [(t.id, er.2)],
        completed_tasks := addCompleted er.1.completed_tasks t.id }
      rest

/-- Readiness selection of one pass (orchestrator.py lines 328-343): every
task not yet in `completed_tasks` whose dependencies are all in
`completed_tasks` and whose status is `PENDING`, partitioned into the
sequential group (`.1`) and the parallel group (`.2`), in task-map order. -/
def ready_of (s : WorkflowState) : List Task × List Task :=
  let sel := s.tasks.filter (fun t =>
    !(s.completed_tasks.contains t.id) &&
    t.dependencies.all (fun d => s.completed_tasks.contains d) &&
    t.status == TaskStatus.pending)
  (sel.filter (fun t => !t.can_parallelize), sel.filter (fun t => t.can_parallelize))

/-- The scheduler loop of `_execute_tasks`: while fewer than `total` (the
length of the original plan) tasks are in the completed set, run one pass;
break when a pass selected nothing.  `fuel` bounds the number of passes; the
source loop terminates because every nonempty pass grows the completed set. -/
def execute_tasks_loop (env : ToolEnv) (total : Nat) : Nat → WorkflowState → WorkflowState
  | 0, s => s
  | fuel + 1, s =>
    if s.completed_tasks.length < total then
      let sel := ready_of s
      let s1 := run_parallel env (run_sequential env s sel.1) sel.2
      if sel.1.isEmpty && sel.2.isEmpty then s1
      else execute_tasks_loop env total fuel s1
    else s

/-- `_create_workflow_plan` (orchestrator.py lines 224-311). -/
def create_workflow_plan (flash_device run_qemu : Bool) : List Task :=
  let phase12 : List Task :=
    [{ id := "setup_project", role := AgentRole.project_manager,
       action := "validate_project_structure", dependencies := [],
       status := TaskStatus.pending },
     { id := "set_target", role := AgentRole.project_manager,
       action := "set_chip_target", dependencies := ["setup_project"],
       status := TaskStatus.pending },
     { id := "build_firmware", role := AgentRole.builder,
       action := "compile_and_cache", dependencies := ["set_target"],
       status := TaskStatus.pending }]
  let phase3 : List Task :=
    (if flash_device then
      [{ id := "flash_device", role := AgentRole.tester,
         action := "flash_to_hardware", dependencies := ["build_firmware"],
         status := TaskStatus.pending, can_parallelize := true }]
     else []) ++
    (if run_qemu then
      [{ id := "run_simulation", role := AgentRole.tester,
         action := "start_qemu", dependencies := ["build_firmware"],
         status := TaskStatus.pending, can_parallelize := true }]
     else [])
  let validation_deps : List String :=
    (if flash_device then ["flash_device"] else []) ++
    (if run_qemu then ["run_simulation"] else [])
  phase12 ++ phase3 ++
    [{ id := "hardware_check", role := AgentRole.doctor,
       action := "run_diagnostics", dependencies := validation_deps,
       status := TaskStatus.pending, can_parallelize := true },
     { id := "qa_analysis", role := AgentRole.qa,
       action := "analyze_results", dependencies := validation_deps,
       status := TaskStatus.pending, can_parallelize := true }]

/-- The `execute_workflow` return dictionary (orchestrator.py lines 217-222)
together with the orchestrator's final in-memory state. -/
structure WorkflowResult where
  success : Bool
  phases : List (String × HandlerResult)
  qa_iterations : Nat
  artifacts : Artifacts
  state : WorkflowState
deriving Repr

/-- The `WorkflowState` constructed at the start of `execute_workflow`
(orchestrator.py lines 201-207), with the plan installed as the task map
(line 322). -/
def initial_state (project_path target : String) (flash_device run_qemu : Bool) :
    WorkflowState :=
  { project_path := project_path, target := target,
    current_phase := "initialization",
    tasks := create_workflow_plan flash_device run_qemu, artifacts := {} }

/-- `execute_workflow` (orchestrator.py lines 172-222): initialise the state
with `current_phase = "initialization"`, build the plan, run the scheduler,
and report `success` as `current_phase == "completed"`.  No statement in the
engine ever assigns `current_phase` after initialisation. -/
def execute_workflow (env : ToolEnv) (project_path target : String)
    (flash_device run_qemu : Bool) : WorkflowResult :=
  let plan := create_workflow_plan flash_device run_qemu
  let s := execute_tasks_loop env plan.length (plan.length + 1)
    (initial_state project_path target flash_device run_qemu)
  { success := s.current_phase == "completed",
    phases := s.results,
    qa_iterations := s.qa_iterations,
    artifacts := s.artifacts,
    state := s }

/-! ## Scheduler skeleton

The scheduler's task selection depends only on task ids, dependency lists,
parallel flags, the pending bit of each status, and the completed set — never
on the environment-dependent parts of a handler result.  The skeleton machine
below runs the same selection loop on exactly that data; a simulation theorem
(further down) transfers its concrete runs to `execute_tasks_loop` for every
environment, provided no sequentially selected task is named `qa_analysis`
(otherwise the feedback branch would consult the environment). -/

/-- Environment-independent view of one task. -/
structure SkelTask where
  id : String
  action : String
  dependencies : List String
  pend : Bool
  can_parallelize : Bool
deriving DecidableEq, Repr

/-- Abstraction of a `Task`. -/
def skelT (t : Task) : SkelTask :=
  { id := t.id, action := t.action, dependencies := t.dependencies,
    pend := t.status == TaskStatus.pending, can_parallelize := t.can_parallelize }

/-- Environment-independent view of the scheduler state. -/
structure Skel where
  completed : List String
  tasks : List SkelTask
  trace : List String
deriving DecidableEq, Repr

/-- Abstraction of a `WorkflowState`. -/
def skelS (s : WorkflowState) : Skel :=
  { completed := s.completed_tasks, tasks := s.tasks.map skelT, trace := s.trace }

/-- Skeleton counterpart of executing one selected task and adding it to the
completed set: the task's pending bit drops (its final status is `completed`
or `failed`, never `pending`). -/
def skelStep (k : Skel) (st : SkelTask) : Skel :=
  { completed := addCompleted k.completed st.id,
    tasks := k.tasks.map (fun u => if u.id == st.id then { st with pend := false } else u),
    trace := k.trace ++ [st.id] }

/-- Skeleton counterpart of running one selection group in order. -/
def skelRun : Skel → List SkelTask → Skel
  | k, [] => k
  | k, st :: rest => skelRun (skelStep k st) rest

/-- Skeleton counterpart of `ready_of`. -/
def skelReady (k : Skel) : List SkelTask × List SkelTask :=
  let sel := k.tasks.filter (fun t =>
    !(k.completed.contains t.id) &&
    t.dependencies.all (fun d => k.completed.contains d) &&
    t.pend)
  (sel.filter (fun t => !t.can_parallelize), sel.filter (fun t => t.can_parallelize))

/-- Skeleton counterpart of `execute_tasks_loop`.  The boolean records that no
sequentially selected task was named `qa_analysis` in any pass, which is the
condition under which the skeleton run is faithful for every environment. -/
def skelLoop (total : Nat) : Nat → Skel → Skel × Bool
  | 0, k => (k, true)
  | fuel + 1, k =>
    if k.completed.length < total then
      let sel := skelReady k
      let safe := sel.1.all (fun st => !(st.id == "qa_analysis"))
      let k1 := skelRun (skelRun k sel.1) sel.2
      if sel.1.isEmpty && sel.2.isEmpty then (k1, safe)
      else
        let r := skelLoop total fuel k1
        (r.1, safe && r.2)
    else (k, true)

/-- The skeleton of the freshly initialised workflow state: only the plan's
selection data. -/
def planSkel (flash_device run_qemu : Bool) : Skel :=
  { completed := [], tasks := (create_workflow_plan flash_device run_qemu).map skelT,
    trace := [] }

/-- What `_execute_task` guarantees for a task routed to `_qa_analyze`: it is
either still pending or it completed carrying a result whose `success` flag
is true and whose `passed` flag mirrors emptiness of its issue list. -/
def QaGood (t : Task) : Prop :=
  t.status = TaskStatus.pending ∨
  (t.status = TaskStatus.completed ∧
   ∃ r, t.result = some r ∧ r.success = true ∧ r.passed = some r.issues.isEmpty)

/-- Invariant: every task whose action is `analyze_results` is `QaGood`. -/
def QaInv (s : WorkflowState) : Prop :=
  ∀ t ∈ s.tasks, t.action = "analyze_results" → QaGood t

/-! ## Concrete environments used as test inputs -/

/-- A world where every tool call succeeds: the project root lists the build
manifest, the build log and doctor report carry no `error`, the flash log
reports `successfully`, and the simulator prints the expected marker. -/
def envOk : ToolEnv :=
  { list_files := "CMakeLists.txt main sdkconfig",
    idf_build_output := "Project build complete",
    build_artifacts := "build/app.bin",
    idf_flash_output := "Flashed successfully in 2.3s",
    qemu_output := "Hello World from ESP32",
    idf_doctor_output := "environment ok" }

/-- A world identical to `envOk` except that the simulator output lacks the
`Hello World` marker, so QA reports an issue and `passed=false`. -/
def envNoHello : ToolEnv :=
  { list_files := "CMakeLists.txt main",
    idf_build_output := "Project build complete",
    build_artifacts := "build/app.bin",
    qemu_output := "ESP32 boot banner",
    idf_doctor_output := "environment ok" }

/-- A world where `idf_build` prints an `error`, so `build_firmware` fails
while every other tool call succeeds. -/
def envBuildErr : ToolEnv :=
  { list_files := "CMakeLists.txt main",
    idf_build_output := "error: undefined reference to app_main",
    build_artifacts := "build/app.bin",
    idf_flash_output := "Flashed successfully",
    qemu_output := "Hello World",
    idf_doctor_output := "environment ok" }

end Agent

namespace Events

/-! ## Event bus (`src/agent/event_emitter.py`) -/

/-- The `EventType` enum (event_emitter.py lines 14-40). -/
inductive EventKind
  | agent_status_changed
  | agent_started
  | agent_stopped
  | job_created
  | job_started
  | job_progress
  | job_completed
  | job_failed
  | job_cancelled
  | workflow_phase_started
  | workflow_phase_completed
  | log_entry
  | metric_update
  | system_status
deriving DecidableEq, Repr

/-- One published event; the structured payload is opaque to the bus. -/
structure Event where
  event_type : EventKind
  data : String
deriving DecidableEq, Repr

/-- The `EventEmitter` singleton state: the listener registry, the async
queue, the running flag, and — as the observable outcome of callback
invocation — the list of (callback, event) deliveries made so far, in order. -/
structure EmitterState where
  listeners : List (EventKind × Nat)
  event_queue : List Event
  running : Bool
  delivered : List (Nat × Event)
deriving DecidableEq, Repr

/-- `EventEmitter.on`: append a callback to the kind's listener list. -/
def onEvent (s : EmitterState) (k : EventKind) (c : Nat) : EmitterState :=
  { s with listeners := s.listeners ++ [(k, c)] }

/-- `EventEmitter.emit`: `await self._event_queue.put(event)`. -/
def emit (s : EmitterState) (e : Event) : EmitterState :=
  { s with event_queue := s.event_queue ++ [e] }

/-- `EventEmitter.start`: set `_running` and spawn the dispatcher. -/
def startE (s : EmitterState) : EmitterState :=
  { s with running := true }

/-- `EventEmitter.stop`: set `_running = False` — nothing else. -/
def stopE (s : EmitterState) : EmitterState :=
  { s with running := false }

/-- The callbacks registered for one event kind, in registration order. -/
def listeners_for (l : List (EventKind × Nat)) (k : EventKind) : List Nat :=
  (l.filter (fun p => p.1 == k)).map (fun p => p.2)

/-- `EventEmitter._process_events`: while `_running`, take an event from the
queue (the 1-second timeout on an empty queue re-checks the flag, consuming
fuel) and invoke every listener registered for its kind; a raising listener
is logged and skipped, which does not change the delivery list modelled
here.  When `_running` is false the loop exits at once, whatever remains in
the queue. -/
def process_events : Nat → EmitterState → EmitterState
  | 0, s => s
  | fuel + 1, s =>
    if s.running then
      match s.event_queue with
      | [] => process_events fuel s
      | e :: rest =>
        process_events fuel
          { s with event_queue := rest,
                   delivered := s.delivered ++
                     (listeners_for s.listeners e.event_type).map (fun c => (c, e)) }
    else s

end Events

namespace Web

/-! ## Webhook intake (`src/web-server`) -/

/-- The `Project` row (db.py lines 77-110), restricted to the columns the
webhook intake reads or writes. -/
structure Project where
  id : String
  name : String
  repo_full_name : String
  branch : String := "main"
  clone_path : String
  last_commit_sha : Option String := none
  last_synced_at : Option Nat := none
  target : String := "esp32"
  status : String := "pending"
  webhook_secret : Option String := none
deriving DecidableEq, Repr

/-- The `Build` row (db.py lines 140-171), restricted to the columns the
webhook intake writes. -/
structure Build where
  id : Nat
  project_id : String
  commit_sha : Option String := none
  commit_message : Option String := none
  commit_author : Option String := none
  branch : String
  status : String := "pending"
  triggered_by : String
  github_event_type : Option String := none
deriving DecidableEq, Repr

/-- The `WebhookEvent` row (db.py lines 174-194). -/
structure WebhookEvent where
  id : Nat
  project_id : Option String := none
  event_type : String
  event_id : String
  payload : String
  status : String := "pending"
  processed_at : Option Nat := none
  error_message : Option String := none
  signature_valid : Bool := false
deriving DecidableEq, Repr

/-- The persistent store, restricted to the three tables the intake uses. -/
structure DB where
  projects : List Project := []
  events : List WebhookEvent := []
  builds : List Build := []
deriving DecidableEq, Repr

/-- The fields of a parsed webhook JSON payload that the intake reads
(`webhook_service.py`); `raw` is the raw body used for signature checking
and event persistence. -/
structure Payload where
  repo_full_name : Option String := none
  ref : String := ""
  head_commit_id : Option String := none
  head_commit_message : String := ""
  head_commit_author : Option String := none
  pr_action : Option String := none
  pr_head_sha : Option String := none
  raw : String := ""
deriving DecidableEq, Repr

/-- The keys of the parse result that the build decision and build creation
read (`event_data` in github.py lines 169-229). -/
structure EventData where
  branch : Option String := none
  commit_sha : Option String := none
  commit_message : Option String := none
  commit_author : Option String := none
  pr_action : Option String := none
deriving DecidableEq, Repr

/-- `WebhookService.extract_project_identifier`: the repository's
`full_name`. -/
def extract_project_identifier (p : Payload) : Option String :=
  p.repo_full_name

/-- `WebhookService.validate_signature` (webhook_service.py lines 29-77):
strip a `sha256=` head, compute the hex HMAC-SHA-256 of the raw body under
the secret (the keyed hash itself is supplied as `hmacHex`), and compare;
an empty secret skips validation. -/
def validate_signature (hmacHex : String → String → String)
    (payload signature secret : String) : Bool :=
  if secret == "" then true
  else
    let sig := if strStarts signature "sha256=" then strDrop signature 7 else signature
    hmacHex secret payload == sig

/-- `WebhookService.parse_push_event` (webhook_service.py lines 79-129),
restricted to the keys the intake reads back.  When the payload carries no
head-commit id, the logging line `result["commit_sha"][:8]` slices `None`
and raises, so the except handler returns the empty dict — every key the
intake then reads via `.get` yields `None`, modelled as the all-absent
`EventData`. -/
def parse_push_event (p : Payload) : EventData :=
  match p.head_commit_id with
  | none => {}
  | some sha =>
    { branch := some (if strStarts p.ref "refs/heads/" then
                        strReplace p.ref "refs/heads/" "" else p.ref),
      commit_sha := some sha,
      commit_message := some (strStrip p.head_commit_message),
      commit_author := p.head_commit_author }

/-- `WebhookService.parse_pull_request_event` (webhook_service.py lines
131-178), restricted to the keys the intake reads back; the result dict has
no `branch`, `commit_message` or `commit_author` keys. -/
def parse_pull_request_event (p : Payload) : EventData :=
  { commit_sha := p.pr_head_sha, pr_action := p.pr_action }

/-- `WebhookService.should_trigger_build` (webhook_service.py lines 180-211). -/
def should_trigger_build (event_type : String) (d : EventData) : Bool :=
  if event_type == "push" then true
  else if event_type == "pull_request" then
    match d.pr_action with
    | some a => ["opened", "synchronize", "reopened"].contains a
    | none => false
  else false

/-- Python truthiness of an optional string column. -/
def truthy : Option String → Bool
  | none => false
  | some s => !(s == "")

/-- Python `x or default` on an optional string. -/
def orFalsy : Option String → String → String
  | some b, dflt => if b == "" then dflt else b
  | none, dflt => dflt

/-- A FastAPI `HTTPException`. -/
structure HttpError where
  status_code : Nat
  detail : String
deriving DecidableEq, Repr

/-- The 200 response body `WebhookReceivedResponse`. -/
structure ReceivedResponse where
  status : String
  event_id : String
  event_type : String
  queued : Bool
deriving DecidableEq, Repr

/-- The arguments handed to the `process_webhook_event` background task. -/
structure PendingTask where
  webhook_event_id : Nat
  event_type : String
  payload : Payload
  project_id : Option String
deriving DecidableEq, Repr

/-- Autoincrement primary key for a new `WebhookEvent` row. -/
def next_event_pk (db : DB) : Nat := db.events.length + 1

/-- The `receive_webhook` route (github.py lines 25-114): parse the body,
look up the project by repository slug, check the signature when the project
has a secret — raising 401 before anything is persisted on mismatch — then
persist a pending `WebhookEvent` and schedule background processing. -/
def receive_webhook (hmacHex : String → String → String) (db : DB)
    (x_github_event x_github_delivery : String)
    (x_hub_signature_256 : Option String) (payload : Option Payload) :
    Except HttpError (DB × ReceivedResponse × PendingTask) :=
  match payload with
  | none => .error { status_code := 400, detail := "Invalid JSON payload" }
  | some p =>
    match extract_project_identifier p with
    | none => .error { status_code := 400, detail := "Could not extract repository info" }
    | some repo_full_name =>
      if repo_full_name == "" then
        .error { status_code := 400, detail := "Could not extract repository info" }
      else
        let project? := db.projects.find? (fun pr => pr.repo_full_name == repo_full_name)
        let sigCheck : Except HttpError Bool :=
          match project? with
          | some pr =>
            if truthy pr.webhook_secret then
              if validate_signature hmacHex p.raw (x_hub_signature_256.getD "")
                   (pr.webhook_secret.getD "") then
                .ok true
              else .error { status_code := 401, detail := "Invalid signature" }
            else .ok true
          | none => .ok true
        match sigCheck with
        | .error e => .error e
        | .ok signature_valid =>
          let ev : WebhookEvent :=
            { id := next_event_pk db,
              project_id := project?.map (fun pr => pr.id),
              event_type := x_github_event,
              event_id := x_github_delivery,
              payload := p.raw,
              signature_valid := signature_valid,
              status := "pending" }
          .ok ({ db with events := db.events ++ [ev] },
               { status := "received", event_id := x_github_delivery,
                 event_type := x_github_event, queued := true },
               { webhook_event_id := ev.id, event_type := x_github_event,
                 payload := p, project_id := project?.map (fun pr => pr.id) })

/-- The database state an HTTP caller leaves behind: the updated store on
success, the untouched store when the route raised. -/
def dbAfter (db : DB) : Except HttpError (DB × ReceivedResponse × PendingTask) → DB
  | .ok r => r.1
  | .error _ => db

/-- Update the webhook event row with the given id. -/
def set_event (events : List WebhookEvent) (i : Nat)
    (f : WebhookEvent → WebhookEvent) : List WebhookEvent :=
  events.map (fun e => if e.id == i then f e else e)

/-- Mark the webhook event row `processing` (github.py line 149). -/
def mark_processing (db : DB) (i : Nat) : DB :=
  { db with events := set_event db.events i (fun e => { e with status := "processing" }) }

/-- Mark the webhook event row `failed` with an error message. -/
def mark_failed (db : DB) (i : Nat) (msg : String) : DB :=
  let f := fun (e : WebhookEvent) => { e with status := "failed", error_message := some msg }
  { db with events := set_event db.events i f }

/-- The message of the `AttributeError` raised by every `db.func.now()`
in `process_webhook_event` (github.py lines 177, 191, 212, 238): `db` there
is a plain `sqlalchemy.orm.Session` (`db = SessionLocal()`), which has no
`func` attribute — unlike the other route modules, which import `func` from
`sqlalchemy` directly. -/
def attr_error_msg : String := "'Session' object has no attribute 'func'"

/-- Observable outcome of the external call `process_webhook_event` makes:
the git sync result. -/
structure SyncEnv where
  sync_success : Bool := true
  current_commit : String := ""
  sync_error : String := ""
deriving DecidableEq, Repr

/-- Side effects `process_webhook_event` can request from other components.
`execute_build` is the hand-off of a build to the build orchestrator
(`BuildOrchestrationService.execute_build`) — part of the interface
vocabulary, whether or not the route invokes it. -/
inductive Effect
  | update_repository (clone_path : String) (branch : String)
  | execute_build (build_id : Nat)
deriving DecidableEq, Repr

/-- The `process_webhook_event` background task (github.py lines 117-251):
mark the event `processing`; resolve the project; parse the event; decide;
on a positive decision sync the repository and advance the project's commit
hash.  Every statement that evaluates `db.func.now()` (lines 177, 191, 238
for `processed_at`, line 212 for `last_synced_at`) raises `AttributeError` —
`db` is a plain `Session` — and control jumps to the `except` handler (lines
243-248), which overwrites the event's status with `failed`, records the
exception message, and commits.  That commit flushes the pending
`last_commit_sha` assignment from line 211, but line 213 onward is dead: the
sync instant is never stamped, no `Build` row is ever created, the event is
never marked `success`, and the orchestrator hand-off (the `TODO` at line
233) is never reached, so no `Effect.execute_build` is ever produced. -/
def process_webhook_event (env : SyncEnv) (db : DB) (webhook_event_id : Nat)
    (event_type : String) (payload : Payload) (project_id : Option String) :
    DB × List Effect :=
  match db.events.find? (fun e => e.id == webhook_event_id) with
  | none => (db, [])
  | some _ =>
    let db1 := mark_processing db webhook_event_id
    match project_id with
    | none => (mark_failed db1 webhook_event_id "No project associated with this webhook", [])
    | some pid =>
      match db1.projects.find? (fun pr => pr.id == pid) with
      | none => (mark_failed db1 webhook_event_id ("Project " ++ pid ++ " not found"), [])
      | some project =>
        if event_type == "ping" then
          -- line 176 sets status "success" in memory, line 177 raises; the
          -- except handler overwrites with "failed" before the commit
          (mark_failed db1 webhook_event_id attr_error_msg, [])
        else
          let event_data? : Option EventData :=
            if event_type == "push" then some (parse_push_event payload)
            else if event_type == "pull_request" then some (parse_pull_request_event payload)
            else none
          match event_data? with
          | none => (mark_failed db1 webhook_event_id ("Unsupported event type: " ++ event_type), [])
          | some event_data =>
            if !(should_trigger_build event_type event_data) then
              -- line 191 raises as in the ping branch
              (mark_failed db1 webhook_event_id attr_error_msg, [])
            else
              let branch := orFalsy event_data.branch project.branch
              let effs := [Effect.update_repository project.clone_path branch]
              if !env.sync_success then
                (mark_failed db1 webhook_event_id
                  ("Failed to sync repository: " ++ env.sync_error), effs)
              else
                -- line 211 assigns last_commit_sha on the ORM object, line 212
                -- raises, and the except handler's commit flushes that pending
                -- assignment; last_synced_at stays unset and no Build is added
                let db2 := { db1 with
                  projects := db1.projects.map (fun pr =>
                    if pr.id == pid then
                      { pr with last_commit_sha := some env.current_commit }
                    else pr) }
                (mark_failed db2 webhook_event_id attr_error_msg, effs)

/-- The Build rows for a project/commit pair that are in a non-terminal
state (`pending` or `running`). -/
def active_builds (db : DB) (pid : String) (sha : String) : List Build :=
  db.builds.filter (fun b =>
    b.project_id == pid && b.commit_sha == some sha &&
    (b.status == "pending" || b.status == "running"))

/-! ## Concrete stores and payloads used as test inputs -/

/-- An active tracked project without a webhook secret. -/
def projDemo : Project :=
  { id := "p1", name := "demo", repo_full_name := "octo/demo", branch := "main",
    clone_path := "/repos/demo", status := "active" }

/-- The same project configured with a webhook secret. -/
def projSecret : Project :=
  { projDemo with webhook_secret := some "s3cret" }

/-- A pending build already queued for commit `c1` of `projDemo`. -/
def buildC1 : Build :=
  { id := 1, project_id := "p1", commit_sha := some "c1", branch := "main",
    triggered_by := "webhook", status := "pending" }

/-- The persisted webhook event row for delivery `d2`. -/
def evD2 : WebhookEvent :=
  { id := 1, project_id := some "p1", event_type := "push", event_id := "d2",
    payload := "{}", signature_valid := true }

/-- A store holding `projDemo`, the event row `evD2` and the already-active
build `buildC1` for commit `c1`. -/
def dbActive : DB := { projects := [projDemo], events := [evD2], builds := [buildC1] }

/-- A store holding only `projSecret`. -/
def dbSecret : DB := { projects := [projSecret] }

/-- A store holding `projDemo` and the event row `evD2`, with no build yet. -/
def dbFresh : DB := { projects := [projDemo], events := [evD2], builds := [] }

/-- A parsed push payload for commit `c1` on `refs/heads/main` of
`octo/demo`. -/
def payPush : Payload :=
  { repo_full_name := some "octo/demo", ref := "refs/heads/main",
    head_commit_id := some "c1", head_commit_message := "fix bug",
    head_commit_author := some "alice", raw := "{}" }

/-- A keyed-hash oracle whose hex digest never matches the forged signature
used in the authentication-failure scenario. -/
def hmacFixed : String → String → String := fun _ _ => "0ddba11"

/-- The sync outcome used in the trigger scenarios: success, HEAD at `c1`. -/
def syncOk : SyncEnv := { sync_success := true, current_commit := "c1" }

end Web

namespace Events

/-- A bus with one `log_entry` subscriber that was started, received one
published `log_entry` event, and was stopped before its dispatcher ran. -/
def stoppedBeforeDispatch : EmitterState :=
  stopE (emit (startE (onEvent
    { listeners := [], event_queue := [], running := false, delivered := [] }
    EventKind.log_entry 0))
    { event_type := EventKind.log_entry, data := "late" })

end Events

end EmbeddedIA

/-! ## Theorems -/

namespace EmbeddedIA

namespace Agent


theorem statusOf_beq_pending (r : HandlerResult) :
    (statusOf r == TaskStatus.pending) = false := by
  unfold statusOf
  cases h : r.success <;> rfl

theorem execute_task_completed (env : ToolEnv) (s : WorkflowState) (t : Task) :
    (execute_task env s t).1.completed_tasks = s.completed_tasks := rfl

theorem execute_task_trace (env : ToolEnv) (s : WorkflowState) (t : Task) :
    (execute_task env s t).1.trace = s.trace ++ [t.id] := rfl

theorem execute_task_qa (env : ToolEnv) (s : WorkflowState) (t : Task) :
    (execute_task env s t).1.qa_iterations = s.qa_iterations := rfl

theorem execute_task_max (env : ToolEnv) (s : WorkflowState) (t : Task) :
    (execute_task env s t).1.max_qa_iterations = s.max_qa_iterations := rfl

theorem execute_task_phase (env : ToolEnv) (s : WorkflowState) (t : Task) :
    (execute_task env s t).1.current_phase = s.current_phase := rfl

theorem feedback_qa (env : ToolEnv) (s : WorkflowState) (r : HandlerResult) :
    (handle_qa_feedback env s r).qa_iterations = s.qa_iterations + 1 := rfl

theorem feedback_max (env : ToolEnv) (s : WorkflowState) (r : HandlerResult) :
    (handle_qa_feedback env s r).max_qa_iterations = s.max_qa_iterations := rfl

theorem feedback_phase (env : ToolEnv) (s : WorkflowState) (r : HandlerResult) :
    (handle_qa_feedback env s r).current_phase = s.current_phase := rfl

theorem execute_task_tasks (env : ToolEnv) (s : WorkflowState) (t : Task) :
    (execute_task env s t).1.tasks.map skelT =
      s.tasks.map (fun u => if u.id == t.id then { skelT t with pend := false } else skelT u) := by
  unfold execute_task updateTask
  simp only [List.map_map]
  refine List.map_congr_left ?_
  intro u _
  by_cases h : (u.id == t.id) = true
  · simp [Function.comp, h, skelT, statusOf_beq_pending]
  · rw [Bool.not_eq_true] at h
    simp [Function.comp, h]

theorem skelS_step (env : ToolEnv) (s : WorkflowState) (t : Task)
    (R : List (String × HandlerResult)) :
    skelS { (execute_task env s t).1 with
            results := R,
            completed_tasks := addCompleted (execute_task env s t).1.completed_tasks t.id } =
      skelStep (skelS s) (skelT t) := by
  unfold skelS skelStep
  simp only [execute_task_completed, execute_task_trace, execute_task_tasks]
  congr 1
  rw [List.map_map]
  refine List.map_congr_left ?_
  intro u _
  rfl

theorem skelS_completed (s : WorkflowState) : (skelS s).completed = s.completed_tasks := rfl

theorem skelS_tasks (s : WorkflowState) : (skelS s).tasks = s.tasks.map skelT := rfl

theorem skelS_trace (s : WorkflowState) : (skelS s).trace = s.trace := rfl

theorem isEmpty_map {α β : Type} (f : α → β) (l : List α) : (l.map f).isEmpty = l.isEmpty := by
  cases l <;> rfl

theorem run_parallel_sim (env : ToolEnv) :
    ∀ (l : List Task) (s : WorkflowState),
      skelS (run_parallel env s l) = skelRun (skelS s) (l.map skelT) := by
  intro l
  induction l with
  | nil => intro s; rfl
  | cons t rest ih =>
    intro s
    simp only [run_parallel, List.map_cons, skelRun]
    rw [ih, skelS_step]

theorem run_sequential_sim (env : ToolEnv) :
    ∀ (l : List Task) (s : WorkflowState),
      (∀ t ∈ l, (t.id == "qa_analysis") = false) →
      skelS (run_sequential env s l) = skelRun (skelS s) (l.map skelT) := by
  intro l
  induction l with
  | nil => intro s _; rfl
  | cons t rest ih =>
    intro s h
    have ht : (t.id == "qa_analysis") = false := h t (List.mem_cons_self t rest)
    simp only [run_sequential, List.map_cons, skelRun, ht, Bool.false_and,
               Bool.false_eq_true, if_false]
    rw [ih _ (fun u hu => h u (List.mem_cons_of_mem t hu)), skelS_step]

theorem ready_of_sim (s : WorkflowState) :
    (ready_of s).1.map skelT = (skelReady (skelS s)).1 ∧
    (ready_of s).2.map skelT = (skelReady (skelS s)).2 := by
  unfold ready_of skelReady
  rw [skelS_completed, skelS_tasks, List.filter_map]
  constructor <;>
  · dsimp only
    rw [List.filter_map]
    rfl


theorem safety_transfer {l : List Task} {kl : List SkelTask}
    (hmap : l.map skelT = kl)
    (hall : kl.all (fun st => !(st.id == "qa_analysis")) = true) :
    ∀ t ∈ l, (t.id == "qa_analysis") = false := by
  intro t ht
  have hmem : skelT t ∈ kl := hmap ▸ List.mem_map_of_mem skelT ht
  have := List.all_eq_true.mp hall _ hmem
  simpa [skelT] using this

theorem execute_tasks_loop_succ (env : ToolEnv) (total n : Nat) (s : WorkflowState) :
    execute_tasks_loop env total (n + 1) s =
      if s.completed_tasks.length < total then
        (let sel := ready_of s
         let s1 := run_parallel env (run_sequential env s sel.1) sel.2
         if sel.1.isEmpty && sel.2.isEmpty then s1
         else execute_tasks_loop env total n s1)
      else s := rfl

theorem skelLoop_succ (total n : Nat) (k : Skel) :
    skelLoop total (n + 1) k =
      if k.completed.length < total then
        (let sel := skelReady k
         let safe := sel.1.all (fun st => !(st.id == "qa_analysis"))
         let k1 := skelRun (skelRun k sel.1) sel.2
         if sel.1.isEmpty && sel.2.isEmpty then (k1, safe)
         else
           let r := skelLoop total n k1
           (r.1, safe && r.2))
      else (k, true) := rfl

theorem execute_tasks_loop_sim (env : ToolEnv) (total : Nat) :
    ∀ (fuel : Nat) (s : WorkflowState),
      (skelLoop total fuel (skelS s)).2 = true →
      skelS (execute_tasks_loop env total fuel s) = (skelLoop total fuel (skelS s)).1 := by
  intro fuel
  induction fuel with
  | zero => intro s _; rfl
  | succ n ih =>
    intro s hsafe
    rw [skelLoop_succ] at hsafe ⊢
    rw [execute_tasks_loop_succ, skelS_completed] at *
    by_cases hlt : s.completed_tasks.length < total
    · simp only [if_pos hlt] at hsafe ⊢
      have h1 := (ready_of_sim s).1
      have h2 := (ready_of_sim s).2
      have e1 : (skelReady (skelS s)).1.isEmpty = (ready_of s).1.isEmpty := by
        rw [← h1, isEmpty_map]
      have e2 : (skelReady (skelS s)).2.isEmpty = (ready_of s).2.isEmpty := by
        rw [← h2, isEmpty_map]
      rw [e1, e2] at hsafe ⊢
      by_cases hbr : ((ready_of s).1.isEmpty && (ready_of s).2.isEmpty) = true
      · simp only [if_pos hbr] at hsafe ⊢
        have hsafe1 : (skelReady (skelS s)).1.all (fun st => !(st.id == "qa_analysis")) = true := hsafe
        have hseq := run_sequential_sim env (ready_of s).1 s (safety_transfer h1 hsafe1)
        rw [run_parallel_sim, hseq, h1, h2]
      · simp only [if_neg hbr] at hsafe ⊢
        rw [Bool.and_eq_true] at hsafe
        have hsafe1 : (skelReady (skelS s)).1.all (fun st => !(st.id == "qa_analysis")) = true :=
          hsafe.1
        have hseq := run_sequential_sim env (ready_of s).1 s (safety_transfer h1 hsafe1)
        have hstate : skelS (run_parallel env (run_sequential env s (ready_of s).1) (ready_of s).2) =
            skelRun (skelRun (skelS s) (skelReady (skelS s)).1) (skelReady (skelS s)).2 := by
          rw [run_parallel_sim, hseq, h1, h2]
        rw [ih _ (by rw [hstate]; exact hsafe.2), hstate]
    · simp only [if_neg hlt] at hsafe ⊢

theorem run_sequential_phase (env : ToolEnv) :
    ∀ (l : List Task) (s : WorkflowState),
      (run_sequential env s l).current_phase = s.current_phase := by
  intro l
  induction l with
  | nil => intro s; rfl
  | cons t rest ih =>
    intro s
    simp only [run_sequential]
    rw [ih]
    split
    · split
      · rw [feedback_phase]; rfl
      · rfl
    · rfl

theorem run_parallel_phase (env : ToolEnv) :
    ∀ (l : List Task) (s : WorkflowState),
      (run_parallel env s l).current_phase = s.current_phase := by
  intro l
  induction l with
  | nil => intro s; rfl
  | cons t rest ih =>
    intro s
    simp only [run_parallel]
    rw [ih]
    rfl

theorem execute_tasks_loop_phase (env : ToolEnv) (total : Nat) :
    ∀ (fuel : Nat) (s : WorkflowState),
      (execute_tasks_loop env total fuel s).current_phase = s.current_phase := by
  intro fuel
  induction fuel with
  | zero => intro s; rfl
  | succ n ih =>
    intro s
    rw [execute_tasks_loop_succ]
    split
    · dsimp only
      split
      · rw [run_parallel_phase, run_sequential_phase]
      · rw [ih, run_parallel_phase, run_sequential_phase]
    · rfl

theorem workflow_success_false (env : ToolEnv) (pp tt : String) (f q : Bool) :
    (execute_workflow env pp tt f q).success = false := by
  show ((execute_tasks_loop env _ _ (initial_state pp tt f q)).current_phase == "completed") = false
  rw [execute_tasks_loop_phase]
  rfl

theorem run_parallel_qa (env : ToolEnv) :
    ∀ (l : List Task) (s : WorkflowState),
      (run_parallel env s l).qa_iterations = s.qa_iterations := by
  intro l
  induction l with
  | nil => intro s; rfl
  | cons t rest ih => intro s; simp only [run_parallel]; rw [ih]; rfl

theorem run_parallel_max (env : ToolEnv) :
    ∀ (l : List Task) (s : WorkflowState),
      (run_parallel env s l).max_qa_iterations = s.max_qa_iterations := by
  intro l
  induction l with
  | nil => intro s; rfl
  | cons t rest ih => intro s; simp only [run_parallel]; rw [ih]; rfl

theorem run_sequential_qa_le (env : ToolEnv) :
    ∀ (l : List Task) (s : WorkflowState),
      s.qa_iterations ≤ s.max_qa_iterations →
      (run_sequential env s l).qa_iterations ≤ (run_sequential env s l).max_qa_iterations := by
  intro l
  induction l with
  | nil => intro s h; exact h
  | cons t rest ih =>
    intro s h
    simp only [run_sequential]
    apply ih
    split
    · split
      · rename_i hlt
        rw [feedback_qa, feedback_max]
        exact Nat.succ_le_of_lt hlt
      · exact h
    · exact h

theorem execute_tasks_loop_qa_le (env : ToolEnv) (total : Nat) :
    ∀ (fuel : Nat) (s : WorkflowState),
      s.qa_iterations ≤ s.max_qa_iterations →
      (execute_tasks_loop env total fuel s).qa_iterations ≤
        (execute_tasks_loop env total fuel s).max_qa_iterations := by
  intro fuel
  induction fuel with
  | zero => intro s h; exact h
  | succ n ih =>
    intro s h
    rw [execute_tasks_loop_succ]
    split
    · dsimp only
      split
      · rw [run_parallel_qa, run_parallel_max]
        exact run_sequential_qa_le env _ s h
      · apply ih
        rw [run_parallel_qa, run_parallel_max]
        exact run_sequential_qa_le env _ s h
    · exact h

theorem qa_inv_execute_task (env : ToolEnv) (s : WorkflowState) (t : Task)
    (h : QaInv s) : QaInv ((execute_task env s t).1) := by
  intro u hu hact
  unfold execute_task updateTask at hu
  simp only [List.mem_map] at hu
  obtain ⟨v, hv, hveq⟩ := hu
  by_cases hid : (v.id == t.id) = true
  · rw [if_pos hid] at hveq
    subst hveq
    have hact' : t.action = "analyze_results" := hact
    right
    simp only [dispatch_action, hact']
    simp [statusOf, qa_analyze]
  · rw [if_neg (by simp [hid]) ] at hveq
    subst hveq
    exact h v hv hact

theorem qa_inv_append (s : WorkflowState) (t : Task) (h : QaInv s)
    (ht : t.status = TaskStatus.pending) :
    QaInv { s with tasks := s.tasks ++ [t] } := by
  intro u hu hact
  rcases List.mem_append.mp hu with h1 | h1
  · exact h u h1 hact
  · rw [List.mem_singleton.mp h1]
    exact Or.inl ht

theorem qa_inv_feedback (env : ToolEnv) (s : WorkflowState) (r : HandlerResult)
    (h : QaInv s) : QaInv (handle_qa_feedback env s r) := by
  unfold handle_qa_feedback
  apply qa_inv_execute_task
  apply qa_inv_append _ _ _ rfl
  apply qa_inv_execute_task
  apply qa_inv_append _ _ _ rfl
  apply qa_inv_execute_task
  apply qa_inv_append _ _ _ rfl
  intro u hu hact
  exact h u hu hact

theorem qa_inv_run_sequential (env : ToolEnv) :
    ∀ (l : List Task) (s : WorkflowState), QaInv s → QaInv (run_sequential env s l) := by
  intro l
  induction l with
  | nil => intro s h; exact h
  | cons t rest ih =>
    intro s h
    simp only [run_sequential]
    apply ih
    split
    · split
      · exact qa_inv_feedback env _ _ (qa_inv_execute_task env s t h)
      · exact qa_inv_execute_task env s t h
    · exact qa_inv_execute_task env s t h

theorem qa_inv_run_parallel (env : ToolEnv) :
    ∀ (l : List Task) (s : WorkflowState), QaInv s → QaInv (run_parallel env s l) := by
  intro l
  induction l with
  | nil => intro s h; exact h
  | cons t rest ih =>
    intro s h
    simp only [run_parallel]
    exact ih _ (qa_inv_execute_task env s t h)

theorem qa_inv_loop (env : ToolEnv) (total : Nat) :
    ∀ (fuel : Nat) (s : WorkflowState), QaInv s → QaInv (execute_tasks_loop env total fuel s) := by
  intro fuel
  induction fuel with
  | zero => intro s h; exact h
  | succ n ih =>
    intro s h
    rw [execute_tasks_loop_succ]
    split
    · dsimp only
      split
      · exact qa_inv_run_parallel env _ _ (qa_inv_run_sequential env _ _ h)
      · exact ih _ (qa_inv_run_parallel env _ _ (qa_inv_run_sequential env _ _ h))
    · exact h

theorem plan_all_pending (f q : Bool) :
    (create_workflow_plan f q).all (fun t => t.status == TaskStatus.pending) = true := by
  cases f <;> cases q <;> decide

theorem qa_inv_initial (pp tt : String) (f q : Bool) :
    QaInv (initial_state pp tt f q) := by
  intro t ht _
  left
  have := List.all_eq_true.mp (plan_all_pending f q) t ht
  exact eq_of_beq this

theorem all_map_comp {α β : Type} (f : α → β) (l : List α) (p : β → Bool) :
    (l.map f).all p = l.all (fun a => p (f a)) := by
  induction l with
  | nil => rfl
  | cons a l ih => simp [List.all_cons, ih]

theorem findTask_skel (s : WorkflowState) (i : String) :
    (findTask s.tasks i).map skelT = (skelS s).tasks.find? (fun st => st.id == i) := by
  rw [skelS_tasks, List.find?_map]
  rfl

theorem all_executed_of_skel (env : ToolEnv) (pp tt : String) (f q : Bool)
    (hsafe : (skelLoop (create_workflow_plan f q).length
        ((create_workflow_plan f q).length + 1) (planSkel f q)).2 = true)
    (hall : ((skelLoop (create_workflow_plan f q).length
        ((create_workflow_plan f q).length + 1) (planSkel f q)).1).tasks.all
        (fun st => !st.pend) = true) :
    ((execute_workflow env pp tt f q).state.tasks.all
      (fun t => !(t.status == TaskStatus.pending))) = true := by
  have key : skelS (execute_workflow env pp tt f q).state =
      (skelLoop (create_workflow_plan f q).length
        ((create_workflow_plan f q).length + 1) (planSkel f q)).1 :=
    execute_tasks_loop_sim env _ _ (initial_state pp tt f q) hsafe
  have step1 : (skelS (execute_workflow env pp tt f q).state).tasks.all (fun st => !st.pend) =
      (execute_workflow env pp tt f q).state.tasks.all
        (fun t => !(t.status == TaskStatus.pending)) := by
    rw [skelS_tasks, all_map_comp]
    rfl
  rw [← step1, key]
  exact hall

theorem trace_of_skel (env : ToolEnv) (pp tt : String) (f q : Bool)
    (hsafe : (skelLoop (create_workflow_plan f q).length
        ((create_workflow_plan f q).length + 1) (planSkel f q)).2 = true) :
    (execute_workflow env pp tt f q).state.trace =
      ((skelLoop (create_workflow_plan f q).length
        ((create_workflow_plan f q).length + 1) (planSkel f q)).1).trace := by
  have key : skelS (execute_workflow env pp tt f q).state =
      (skelLoop (create_workflow_plan f q).length
        ((create_workflow_plan f q).length + 1) (planSkel f q)).1 :=
    execute_tasks_loop_sim env _ _ (initial_state pp tt f q) hsafe
  rw [← skelS_trace, key]

theorem qa_complete_of_skel (env : ToolEnv) (pp tt : String) (f q : Bool)
    (hsafe : (skelLoop (create_workflow_plan f q).length
        ((create_workflow_plan f q).length + 1) (planSkel f q)).2 = true)
    (hfind : (((skelLoop (create_workflow_plan f q).length
        ((create_workflow_plan f q).length + 1) (planSkel f q)).1).tasks.find?
        (fun st => st.id == "qa_analysis")).all
        (fun st => st.action == "analyze_results" && !st.pend) = true)
    (hsome : (((skelLoop (create_workflow_plan f q).length
        ((create_workflow_plan f q).length + 1) (planSkel f q)).1).tasks.find?
        (fun st => st.id == "qa_analysis")).isSome = true) :
    ∃ t, findTask (execute_workflow env pp tt f q).state.tasks "qa_analysis" = some t ∧
      t.status = TaskStatus.completed ∧
      ∃ r, t.result = some r ∧ r.success = true ∧ r.passed = some r.issues.isEmpty := by
  have key : skelS (execute_workflow env pp tt f q).state =
      (skelLoop (create_workflow_plan f q).length
        ((create_workflow_plan f q).length + 1) (planSkel f q)).1 :=
    execute_tasks_loop_sim env _ _ (initial_state pp tt f q) hsafe
  have hmap : (findTask (execute_workflow env pp tt f q).state.tasks "qa_analysis").map skelT =
      ((skelLoop (create_workflow_plan f q).length
        ((create_workflow_plan f q).length + 1) (planSkel f q)).1).tasks.find?
        (fun st => st.id == "qa_analysis") := by
    rw [findTask_skel, key]
  have hinv : QaInv (execute_workflow env pp tt f q).state := by
    have h0 := qa_inv_loop env (create_workflow_plan f q).length
      ((create_workflow_plan f q).length + 1) (initial_state pp tt f q)
      (qa_inv_initial pp tt f q)
    exact h0
  obtain ⟨st, hst⟩ := Option.isSome_iff_exists.mp hsome
  rw [hst] at hmap hfind
  obtain ⟨t, hfd, hsk⟩ := Option.map_eq_some'.mp hmap
  simp only [Option.all_some, Bool.and_eq_true] at hfind
  have hact : t.action = "analyze_results" := by
    have ha := hfind.1
    rw [← hsk] at ha
    exact eq_of_beq ha
  have hnp : (t.status == TaskStatus.pending) = false := by
    have hp := hfind.2
    rw [← hsk] at hp
    simpa [skelT] using hp
  have hmem : t ∈ (execute_workflow env pp tt f q).state.tasks :=
    List.mem_of_find?_eq_some hfd
  have hgood := hinv t hmem hact
  rcases hgood with hpend | hdone
  · rw [hpend] at hnp
    simp at hnp
  · exact ⟨t, hfd, hdone.1, hdone.2⟩

/-- C1: the claim states `success` is true iff every task completed.  In the
code `success` is `current_phase == "completed"`, and `current_phase` is never
assigned after being initialised to `"initialization"`, so in the world
`envOk`, where all seven tasks reach `completed`, the workflow still reports
`success = false`. -/
theorem success_false_despite_all_completed :
    ((execute_workflow envOk "/p" "esp32" true true).state.tasks.all
        (fun t => t.status == TaskStatus.completed)) = true ∧
    (execute_workflow envOk "/p" "esp32" true true).success = false := ⟨rfl, rfl⟩

/-- C2: the claim states that a `qa_analysis` completion with `passed=false`
below the bound increments the counter and appends the fix/rebuild/retest
tasks.  The feedback check only runs in the sequential branch of the
scheduler, while `qa_analysis` is always parallel-eligible: in the world
`envNoHello` QA completes with `passed=false`, yet `qa_iterations` stays 0
and no `fix_issues_1`/`rebuild_1`/`retest_1` task is ever appended. -/
theorem qa_failed_but_no_feedback :
    ((execute_workflow envNoHello "/p" "esp32" false true).phases.filter
        (fun pr => pr.1 == "qa_analysis")).map (fun pr => pr.2.passed) = [some false] ∧
    (execute_workflow envNoHello "/p" "esp32" false true).qa_iterations = 0 ∧
    ((execute_workflow envNoHello "/p" "esp32" false true).state.tasks.map Task.id) =
      ["setup_project", "set_target", "build_firmware", "run_simulation",
       "hardware_check", "qa_analysis"] := ⟨rfl, rfl, rfl⟩

/-- C3 counterexample: in the world `envBuildErr`, `build_firmware` ends in
state `failed`, yet `run_simulation` — whose only prerequisite is
`build_firmware` — is executed anyway and completes, contradicting "a task
one of whose prerequisites ended in state failed is never executed: it
remains pending". -/
theorem failed_prereq_does_not_block_cex :
    (findTask (execute_workflow envBuildErr "/p" "esp32" true true).state.tasks
        "build_firmware").map Task.status = some TaskStatus.failed ∧
    (findTask (execute_workflow envBuildErr "/p" "esp32" true true).state.tasks
        "run_simulation").map Task.dependencies = some ["build_firmware"] ∧
    (findTask (execute_workflow envBuildErr "/p" "esp32" true true).state.tasks
        "run_simulation").map Task.status = some TaskStatus.completed :=
  ⟨rfl, rfl, rfl⟩

/-- C3 amended: the readiness check counts every already-executed
prerequisite as satisfied whether it completed or failed, so downstream
tasks of a failed task are executed anyway: in every environment and for
every flag combination no task of the run is left `pending`, and the
workflow is reported failed only because `success` is always `false`. -/
theorem failed_prereq_tasks_still_execute (env : ToolEnv) (pp tt : String) (f q : Bool) :
    ((execute_workflow env pp tt f q).state.tasks.all
        (fun t => !(t.status == TaskStatus.pending))) = true ∧
    (execute_workflow env pp tt f q).success = false := by
  refine ⟨?_, workflow_success_false env pp tt f q⟩
  cases f <;> cases q <;>
    exact all_executed_of_skel env pp tt _ _ (by decide) (by decide)

/-- C7 counterexample: with both flags false the execution trace places
`hardware_check` and `qa_analysis` directly after `setup_project` and before
`set_target` and `build_firmware`, contradicting the claimed order
(setup, set_target, build_firmware sequentially before the parallel pair). -/
theorem plan_ff_execution_order_cex :
    (execute_workflow envOk "/p" "esp32" false false).state.trace =
      ["setup_project", "hardware_check", "qa_analysis", "set_target", "build_firmware"] ∧
    ((execute_workflow envOk "/p" "esp32" false false).state.trace.indexOf "hardware_check" <
      (execute_workflow envOk "/p" "esp32" false false).state.trace.indexOf "set_target") := by
  refine ⟨rfl, by decide⟩

/-- C7 amended: with `flash_device=false` and `run_qemu=false` the plan
contains exactly the five claimed tasks with no dependency on the absent
flash/simulation tasks — `hardware_check` and `qa_analysis` end up with no
prerequisites at all — and in every environment execution runs
`setup_project` sequentially, then `hardware_check` and `qa_analysis` in the
parallel group of the same pass, then `set_target` and `build_firmware`. -/
theorem plan_ff_tasks_and_order (env : ToolEnv) (pp tt : String) :
    ((create_workflow_plan false false).map
        (fun t => (t.id, t.dependencies, t.can_parallelize)) =
      [("setup_project", [], false), ("set_target", ["setup_project"], false),
       ("build_firmware", ["set_target"], false),
       ("hardware_check", [], true), ("qa_analysis", [], true)]) ∧
    (execute_workflow env pp tt false false).state.trace =
      ["setup_project", "hardware_check", "qa_analysis", "set_target", "build_firmware"] := by
  refine ⟨by decide, ?_⟩
  rw [trace_of_skel env pp tt false false (by decide)]
  decide

/-- C8: in every environment and for every flag combination the final
repair-iteration counter is at most the configured bound
`max_qa_iterations`: the only increment sits under the guard
`qa_iterations < max_qa_iterations`. -/
theorem qa_iterations_le_bound (env : ToolEnv) (pp tt : String) (f q : Bool) :
    (execute_workflow env pp tt f q).qa_iterations ≤
      (execute_workflow env pp tt f q).state.max_qa_iterations :=
  execute_tasks_loop_qa_le env _ _ (initial_state pp tt f q) (Nat.zero_le _)

/-- C10: `_qa_analyze` returns `success=true` unconditionally with `passed`
mirroring emptiness of its issue list, and consequently in every run the
`qa_analysis` task ends in state `completed` carrying such a result — a QA
failure is visible only through `passed=false`/the issue list, never as task
state `failed`. -/
theorem qa_analysis_always_completes :
    (∀ a : Artifacts, (qa_analyze a).success = true ∧
        (qa_analyze a).passed = some (qa_issues a).isEmpty) ∧
    (∀ (env : ToolEnv) (pp tt : String) (f q : Bool),
      ∃ t, findTask (execute_workflow env pp tt f q).state.tasks "qa_analysis" = some t ∧
        t.status = TaskStatus.completed ∧
        ∃ r, t.result = some r ∧ r.success = true ∧ r.passed = some r.issues.isEmpty) := by
  refine ⟨fun a => ⟨rfl, rfl⟩, ?_⟩
  intro env pp tt f q
  cases f <;> cases q <;>
    exact qa_complete_of_skel env pp tt _ _ (by decide) (by decide) (by decide)

end Agent

namespace Events

theorem process_events_halted :
    ∀ (fuel : Nat) (s : EmitterState), s.running = false → process_events fuel s = s := by
  intro fuel s h
  cases fuel with
  | zero => rfl
  | succ n => simp [process_events, h]

/-- C9 amended: while the dispatcher is running it dequeues the head event
and delivers it to every callback registered for its kind, in registration
order; but `stop()` only clears the running flag — the dispatch loop is the
identity once `running = false`, so events still queued at that point are
never delivered. -/
theorem dispatch_while_running_halt_on_stop :
    (∀ (fuel : Nat) (s : EmitterState), s.running = false → process_events fuel s = s) ∧
    (∀ (fuel : Nat) (s : EmitterState) (e : Event) (rest : List Event),
      s.running = true → s.event_queue = e :: rest →
      process_events (fuel + 1) s =
        process_events fuel
          { s with event_queue := rest,
                   delivered := s.delivered ++
                     (listeners_for s.listeners e.event_type).map (fun c => (c, e)) }) ∧
    (∀ (l : List (EventKind × Nat)) (k : EventKind) (c : Nat),
      c ∈ listeners_for l k ↔ (k, c) ∈ l) := by
  refine ⟨process_events_halted, ?_, ?_⟩
  · intro fuel s e rest hrun hq
    simp [process_events, hrun, hq]
  · intro l k c
    simp only [listeners_for, List.mem_map, List.mem_filter]
    constructor
    · rintro ⟨⟨k1, c1⟩, ⟨hmem, hk⟩, rfl⟩
      simp only at hk
      rw [eq_of_beq hk] at hmem
      exact hmem
    · intro hmem
      exact ⟨(k, c), ⟨hmem, by simp⟩, rfl⟩

/-- C9 witness: the three parts of the amended statement instantiated on the
concrete one-subscriber bus. -/
theorem dispatch_while_running_halt_on_stop_witness :
    process_events 3 stoppedBeforeDispatch = stoppedBeforeDispatch ∧
    process_events (0 + 1) (startE stoppedBeforeDispatch) =
      process_events 0
        { startE stoppedBeforeDispatch with
          event_queue := [],
          delivered := (startE stoppedBeforeDispatch).delivered ++
            (listeners_for (startE stoppedBeforeDispatch).listeners
              EventKind.log_entry).map
              (fun c => (c, ({ event_type := EventKind.log_entry, data := "late" } : Event))) } ∧
    (0 ∈ listeners_for [(EventKind.log_entry, 0)] EventKind.log_entry ↔
      (EventKind.log_entry, 0) ∈ [(EventKind.log_entry, 0)]) :=
  ⟨dispatch_while_running_halt_on_stop.1 3 stoppedBeforeDispatch rfl,
   dispatch_while_running_halt_on_stop.2.1 0 (startE stoppedBeforeDispatch)
     { event_type := EventKind.log_entry, data := "late" } [] rfl rfl,
   dispatch_while_running_halt_on_stop.2.2 [(EventKind.log_entry, 0)] EventKind.log_entry 0⟩

/-- C9 counterexample: a `log_entry` event published to a started bus with a
registered `log_entry` subscriber is never delivered when `stop()` lands
before the dispatcher's next iteration: however long the dispatcher then
runs, the delivery list stays empty and the event sits in the queue. -/
theorem published_event_dropped_after_stop_cex :
    stoppedBeforeDispatch.listeners = [(EventKind.log_entry, 0)] ∧
    (process_events 100 stoppedBeforeDispatch).delivered = [] ∧
    (process_events 100 stoppedBeforeDispatch).event_queue =
      [{ event_type := EventKind.log_entry, data := "late" }] := ⟨rfl, rfl, rfl⟩

end Events

namespace Web

/-- C4: the claim states a new webhook trigger for a commit that already has
an active build is coalesced and does not create a second Build.  Processing
a second push for `c1` on `dbActive` indeed leaves the build table unchanged
— but not by coalescing: `project.last_synced_at = db.func.now()`
(github.py line 212) raises `AttributeError` on the plain `Session` before
the `Build(...)` construction at line 216 is ever reached, and the except
handler marks the event `failed`.  The code never reaches a creation — let
alone a coalescing — decision; the at-most-one invariant survives only
because the webhook path can never insert a Build at all. -/
theorem active_commit_retrigger_creates_no_build :
    (active_builds dbActive "p1" "c1").length = 1 ∧
    (process_webhook_event syncOk dbActive 1 "push" payPush (some "p1")).1.builds =
      dbActive.builds ∧
    (active_builds (process_webhook_event syncOk dbActive 1 "push" payPush (some "p1")).1
        "p1" "c1").length = 1 ∧
    ((process_webhook_event syncOk dbActive 1 "push" payPush (some "p1")).1.events.map
        (fun e => (e.event_id, e.status, e.error_message))) =
      [("d2", "failed", some attr_error_msg)] := ⟨rfl, rfl, rfl, rfl⟩

end Web

namespace Web

/-- C5 counterexample: for a push delivery whose signature does not verify
against `projSecret`'s secret, the route returns 401 — and the store is left
exactly as it was, with no WebhookEvent row at all, contradicting "a
WebhookEvent record is persisted with signature_valid=false and
status=failed". -/
theorem sig_failure_persists_nothing_cex :
    receive_webhook hmacFixed dbSecret "push" "d1" (some "sha256=forged") (some payPush) =
      .error { status_code := 401, detail := "Invalid signature" } ∧
    dbAfter dbSecret (receive_webhook hmacFixed dbSecret "push" "d1"
        (some "sha256=forged") (some payPush)) = dbSecret ∧
    dbSecret.events = [] := ⟨rfl, rfl, rfl⟩

/-- C5 amended: when the matched project has a configured secret and the
signature fails to verify, the endpoint raises 401 before the WebhookEvent
is created, so the caller gets the authentication error and no event row is
persisted for that delivery. -/
theorem sig_failure_401_no_event (hm : String → String → String) (db : DB)
    (etype delivery : String) (sig : Option String) (p : Payload) (rf : String)
    (project : Project)
    (hrf : extract_project_identifier p = some rf)
    (hne : (rf == "") = false)
    (hfind : db.projects.find? (fun pr => pr.repo_full_name == rf) = some project)
    (hsec : truthy project.webhook_secret = true)
    (hbad : validate_signature hm p.raw (sig.getD "") (project.webhook_secret.getD "") = false) :
    receive_webhook hm db etype delivery sig (some p) =
      .error { status_code := 401, detail := "Invalid signature" } ∧
    dbAfter db (receive_webhook hm db etype delivery sig (some p)) = db := by
  have h1 : receive_webhook hm db etype delivery sig (some p) =
      .error { status_code := 401, detail := "Invalid signature" } := by
    simp only [receive_webhook, hrf, hne, hfind, hsec, hbad, Bool.false_eq_true, if_false]
    rfl
  exact ⟨h1, by rw [h1]; rfl⟩

/-- C5 witness: the amended statement at the forged-signature scenario. -/
theorem sig_failure_401_no_event_witness :
    (receive_webhook hmacFixed dbSecret "push" "d1" (some "sha256=forged") (some payPush) =
      .error { status_code := 401, detail := "Invalid signature" }) ∧
    dbAfter dbSecret (receive_webhook hmacFixed dbSecret "push" "d1"
        (some "sha256=forged") (some payPush)) = dbSecret :=
  sig_failure_401_no_event hmacFixed dbSecret "push" "d1" (some "sha256=forged")
    payPush "octo/demo" projSecret rfl rfl rfl rfl rfl

/-- C6: the claim states a positive decision updates the clone, stamps the
project's commit hash and sync instant, creates a Build with
`triggered_by=webhook`, hands it to the build orchestrator, and marks the
event `success` exactly when that dispatch succeeds.  Processing the push
delivery `d2` on `dbFresh` requests the repository update and advances
`last_commit_sha`, but then `project.last_synced_at = db.func.now()`
(github.py line 212) raises `AttributeError` on the plain `Session`:
`last_synced_at` stays unset, no Build row is created, no
`Effect.execute_build` hand-off ever happens (the dispatch site at line 233
is a TODO comment anyway), and the event ends `failed` with the exception
message — never `success`. -/
theorem webhook_positive_path_fails_before_dispatch :
    (process_webhook_event syncOk dbFresh 1 "push" payPush (some "p1")).2 =
      [Effect.update_repository "/repos/demo" "main"] ∧
    ((process_webhook_event syncOk dbFresh 1 "push" payPush (some "p1")).1.projects.map
      (fun pr => (pr.id, pr.last_commit_sha, pr.last_synced_at))) =
      [("p1", some "c1", none)] ∧
    (process_webhook_event syncOk dbFresh 1 "push" payPush (some "p1")).1.builds = [] ∧
    ((process_webhook_event syncOk dbFresh 1 "push" payPush (some "p1")).1.events.map
      (fun e => (e.event_id, e.status, e.error_message))) =
      [("d2", "failed", some attr_error_msg)] :=
  ⟨rfl, rfl, rfl, rfl⟩

end Web

end EmbeddedIA
